import Mathlib

/-!
Verification of the dual-stream chunked-feedback store
(`src/stores/slices/chunkedMessagesSlice.ts`) and of the streaming-chat
hook (`src/interfaces/coral_web/src/hooks/streamChat.ts`).

Modelling conventions:
* Text is `List Char`; `String.prototype.substring(i, min(i+N, len))`
  becomes `take`/`drop` on the character list.
* JS array writes `arr[i] = v` are modelled by `jsArraySet`, including the
  JS semantics for out-of-range indices: a negative index leaves the array
  proper untouched (it only creates a string-keyed property), while an
  index `>= length` grows the array, filling the gap with holes.
  Holes/`undefined` slots are `none`; a real (possibly empty) feedback
  object is `some _`.
* Array indices that the TypeScript type gives as `number` are `Int`,
  because `showNextChunk` can drive a cursor to `-1`.
* `Date.now()` is passed in as an explicit `now : Nat` parameter.
-/

inductive StreamId
  | stream1
  | stream2
deriving DecidableEq

structure StreamPair (α : Type) where
  stream1 : α
  stream2 : α
deriving DecidableEq

def StreamPair.get {α : Type} (p : StreamPair α) : StreamId → α
  | StreamId.stream1 => p.stream1
  | StreamId.stream2 => p.stream2

def StreamPair.put {α : Type} (p : StreamPair α) : StreamId → α → StreamPair α
  | StreamId.stream1, v => ⟨v, p.stream2⟩
  | StreamId.stream2, v => ⟨p.stream1, v⟩

inductive Rating
  | positive
  | negative
deriving DecidableEq

/-- `type ChunkFeedback` of the slice: every field is optional. -/
structure ChunkFeedback where
  rating : Option Rating
  comment : Option String
  selectedText : Option String
  timestamp : Option Nat
deriving DecidableEq

/-- The empty feedback object `{}` produced by `createEmptyFeedback`. -/
def emptyFeedback : ChunkFeedback := ⟨none, none, none, none⟩

/-- `chunkedMessagesState` of the slice.  `activeFeedback`'s two nullable
fields are modelled as two separate `Option`s, as in the source. -/
structure chunkedMessagesState where
  responses : StreamPair (List Char)
  chunks : StreamPair (List (List Char))
  feedback : StreamPair (List (Option ChunkFeedback))
  currentChunkIndices : StreamPair Int
  isComplete : Bool
  isChunked : Bool
  selectedText : String
  activeStreamId : Option StreamId
  activeChunkIndex : Option Int
deriving DecidableEq

/-- `INITIAL_STATE` of the slice. -/
def INITIAL_STATE : chunkedMessagesState :=
  { responses := ⟨[], []⟩
    chunks := ⟨[], []⟩
    feedback := ⟨[], []⟩
    currentChunkIndices := ⟨0, 0⟩
    isComplete := false
    isChunked := false
    selectedText := ""
    activeStreamId := none
    activeChunkIndex := none }

/-- JS read `arr[i]`: `undefined` (here `none`) for any out-of-range index. -/
def jsArrayGet {α : Type} (l : List α) (i : Int) : Option α :=
  if i < 0 then none else l.get? i.toNat

/-- JS write `arr[i] = v` on an array whose slots are `Option`-valued
(`none` being a hole): a negative index changes nothing of the array
proper; `i < length` overwrites slot `i`; `i ≥ length` appends holes up to
position `i` and then `v`, so the length becomes `i + 1`. -/
def jsArraySet {α : Type} (l : List (Option α)) (i : Int) (v : α) :
    List (Option α) :=
  if i < 0 then l
  else if i.toNat < l.length then l.set i.toNat (some v)
  else l ++ List.replicate (i.toNat - l.length) none ++ [some v]

/-- `createTextChunks` inside `createChunks`: splits the text into
successive segments of `maxChunkSize` characters.  The source's `for`
loop does not terminate when `maxChunkSize = 0` (the slice only ever uses
the default `800`); that unreachable case returns `[]` here so that the
definition is total. -/
def createTextChunks (maxChunkSize : Nat) : List Char → List (List Char)
  | [] => []
  | c :: rest =>
    if _h : maxChunkSize = 0 then []
    else
      (c :: rest).take maxChunkSize ::
        createTextChunks maxChunkSize ((c :: rest).drop maxChunkSize)
termination_by t => t.length
decreasing_by
  simp only [List.length_drop, List.length_cons]
  omega

/-- `createEmptyFeedback` of the slice: `Array(count).fill(null).map(() => ({}))`. -/
def createEmptyFeedback (count : Nat) : List (Option ChunkFeedback) :=
  List.replicate count (some emptyFeedback)

/-- `createChunks(maxChunkSize = 800)`: chunks both responses and replaces
the feedback arrays with empty entries of matching length.  Cursors are
not touched. -/
def createChunks (maxChunkSize : Nat) (s : chunkedMessagesState) :
    chunkedMessagesState :=
  let stream1Chunks := createTextChunks maxChunkSize s.responses.stream1
  let stream2Chunks := createTextChunks maxChunkSize s.responses.stream2
  { s with
    chunks := ⟨stream1Chunks, stream2Chunks⟩
    feedback := ⟨createEmptyFeedback stream1Chunks.length,
                 createEmptyFeedback stream2Chunks.length⟩ }

/-- `startFeedbackSession`: keeps the rest of the state (responses, chunks,
`isComplete`, selection), sets `isChunked`, zeroes both cursors and
regenerates empty feedback arrays from the current chunk counts. -/
def startFeedbackSession (s : chunkedMessagesState) : chunkedMessagesState :=
  { s with
    isChunked := true
    currentChunkIndices := ⟨0, 0⟩
    feedback := ⟨createEmptyFeedback s.chunks.stream1.length,
                 createEmptyFeedback s.chunks.stream2.length⟩ }

/-- `updateStreamContent(streamId, content)`: full-text replace of one
stream's response. -/
def updateStreamContent (streamId : StreamId) (content : List Char)
    (s : chunkedMessagesState) : chunkedMessagesState :=
  { s with responses := s.responses.put streamId content }

/-- `recordFeedback(streamId, chunkIndex, chunkFeedback)`: spreads the
given feedback, stamps `timestamp: Date.now()`, writes it at `chunkIndex`
with JS array-write semantics, and clears the selection. -/
def recordFeedback (streamId : StreamId) (chunkIndex : Int)
    (chunkFeedback : ChunkFeedback) (now : Nat)
    (s : chunkedMessagesState) : chunkedMessagesState :=
  let streamFeedback := s.feedback.get streamId
  let feedbackWithTimestamp := { chunkFeedback with timestamp := some now }
  let updatedFeedback := jsArraySet streamFeedback chunkIndex feedbackWithTimestamp
  { s with
    feedback := s.feedback.put streamId updatedFeedback
    selectedText := ""
    activeStreamId := none
    activeChunkIndex := none }

/-- `showNextChunk`: advances both cursors, clamping with
`Math.min(current + 1, chunks.length - 1)` — note that the bound is
`-1` when a stream has no chunks. -/
def showNextChunk (s : chunkedMessagesState) : chunkedMessagesState :=
  let nextIndex1 := s.currentChunkIndices.stream1 + 1
  let nextIndex2 := s.currentChunkIndices.stream2 + 1
  let maxIndex1 : Int := (s.chunks.stream1.length : Int) - 1
  let maxIndex2 : Int := (s.chunks.stream2.length : Int) - 1
  { s with
    currentChunkIndices := ⟨min nextIndex1 maxIndex1, min nextIndex2 maxIndex2⟩ }

/-- `showNextChunkForStream(streamId)`: advances one cursor, clamping with
`Math.min(current + 1, Math.max(0, chunks.length - 1))`.  The source's
null-guards are vacuous in the typed model; the selection fields are left
untouched. -/
def showNextChunkForStream (streamId : StreamId) (s : chunkedMessagesState) :
    chunkedMessagesState :=
  let streamChunks := s.chunks.get streamId
  let currentIndex := s.currentChunkIndices.get streamId
  let nextIndex := currentIndex + 1
  let maxIndex : Int := max 0 ((streamChunks.length : Int) - 1)
  { s with
    currentChunkIndices :=
      s.currentChunkIndices.put streamId (min nextIndex maxIndex) }

/-- `setSelectedText(text, streamId, chunkIndex)`: unconditionally stores
the text and the stream/chunk reference, with no emptiness check. -/
def setSelectedText (text : String) (streamId : StreamId) (chunkIndex : Int)
    (s : chunkedMessagesState) : chunkedMessagesState :=
  { s with
    selectedText := text
    activeStreamId := some streamId
    activeChunkIndex := some chunkIndex }

/-- `clearSelectedText()`: resets the text and both reference fields. -/
def clearSelectedText (s : chunkedMessagesState) : chunkedMessagesState :=
  { s with
    selectedText := ""
    activeStreamId := none
    activeChunkIndex := none }

/-- The `'➡️ '` marker prepended to the currently visible chunk. -/
def leadingMark : List Char := String.toList "➡️ "

/-- The `' ⬅️'` marker appended to the currently visible chunk. -/
def trailingMark : List Char := String.toList " ⬅️"

/-- `getDecoratedChunk(streamId, chunkIndex)`: a read-only accessor.  The
guard `if (!chunks[chunkIndex]) return ''` is truthiness, so it also fires
when the stored chunk is the empty string. -/
def getDecoratedChunk (streamId : StreamId) (chunkIndex : Int)
    (s : chunkedMessagesState) : List Char :=
  let chunks := s.chunks.get streamId
  let currentIndex := s.currentChunkIndices.get streamId
  match jsArrayGet chunks chunkIndex with
  | none => []
  | some chunk =>
    if chunk = [] then []
    else if chunkIndex = currentIndex then leadingMark ++ chunk ++ trailingMark
    else chunk

/-- Modelled from the spec: `isUnauthorizedError` is imported from
`@/cohere-client` and its definition is not among the provided sources;
the spec describes it as classifying "authorization (HTTP 401-equivalent)"
failures of a `CohereNetworkError` (an error carrying an HTTP status). -/
structure CohereNetworkError where
  status : Nat
deriving DecidableEq

/-- Modelled from the spec: the 401 classification. -/
def isUnauthorizedError (e : CohereNetworkError) : Bool :=
  e.status == 401

/-- The `retry` predicate of `useStreamChat`: one retry is allowed for 401
errors, none otherwise. -/
def retry (failCount : Nat) (error : CohereNetworkError) : Bool :=
  if isUnauthorizedError error then failCount < 1 else false

/-- `ConversationPublic` as used by `getUpdatedConversations`; `title`
stands for the remaining fields carried along by the object spread. -/
structure ConversationPublic where
  id : String
  description : String
  updatedAt : String
  title : String
deriving DecidableEq

/-- `getUpdatedConversations(conversationId, description)` applied to a
cached list: a by-id replace of `description`/`updatedAt`, via `map`.
`new Date().toISOString()` is passed in as `now`. -/
def getUpdatedConversations (conversationId : String) (description : String)
    (now : String) (conversations : List ConversationPublic) :
    List ConversationPublic :=
  conversations.map fun c =>
    if c.id ≠ conversationId then c
    else { c with description := description, updatedAt := now }

/-! ### Helper lemmas -/

theorem StreamPair.get_put_same {α : Type} (p : StreamPair α) (sid : StreamId)
    (v : α) : (p.put sid v).get sid = v := by
  cases sid <;> rfl

theorem StreamPair.get_put_other {α : Type} (p : StreamPair α) (sid tid : StreamId)
    (v : α) (h : tid ≠ sid) : (p.put sid v).get tid = p.get tid := by
  cases sid <;> cases tid <;> first | rfl | exact absurd rfl h

theorem StreamPair.put_put_same {α : Type} (p : StreamPair α) (sid : StreamId)
    (a b : α) : (p.put sid a).put sid b = p.put sid b := by
  cases sid <;> rfl

theorem chunkCountStep (N L : Nat) (hN : 0 < N) (hL : 0 < L) :
    (L - N + N - 1) / N + 1 = (L + N - 1) / N := by
  rcases le_or_lt L N with hle | hlt
  · have h1 : L - N = 0 := by omega
    have h2 : (0 + N - 1) / N = 0 := Nat.div_eq_of_lt (by omega)
    have h3 : L + N - 1 = (L - 1) + N := by omega
    have h4 : (L - 1) / N = 0 := Nat.div_eq_of_lt (by omega)
    rw [h1, h2, h3, Nat.add_div_right _ hN, h4]
  · have h3 : L - N + N - 1 = (L - N - 1) + N := by omega
    have h5 : L + N - 1 = (L - 1) + N := by omega
    have h6 : L - 1 = (L - N - 1) + N := by omega
    rw [h3, Nat.add_div_right _ hN, h5, Nat.add_div_right _ hN, h6,
      Nat.add_div_right _ hN]

theorem createTextChunks_nil (N : Nat) : createTextChunks N [] = [] := by
  rw [createTextChunks]

/-- Chunking is lossless: the chunks concatenate back to the input text. -/
theorem createTextChunks_flatten (N : Nat) (hN : 0 < N) (text : List Char) :
    (createTextChunks N text).flatten = text := by
  induction text using createTextChunks.induct N with
  | case1 => simp [createTextChunks]
  | case2 c rest h => omega
  | case3 c rest h ih =>
    rw [createTextChunks]
    simp only [dif_neg h, List.flatten]
    rw [ih]
    exact List.take_append_drop N (c :: rest)

/-- The number of chunks is `ceil(len / N)`, written `(len + N - 1) / N`. -/
theorem createTextChunks_length (N : Nat) (hN : 0 < N) (text : List Char) :
    (createTextChunks N text).length = (text.length + N - 1) / N := by
  induction text using createTextChunks.induct N with
  | case1 =>
    simp only [createTextChunks, List.length_nil, Nat.zero_add]
    exact (Nat.div_eq_of_lt (by omega)).symm
  | case2 c rest h => omega
  | case3 c rest h ih =>
    rw [createTextChunks]
    simp only [dif_neg h, List.length_cons, ih, List.length_drop]
    exact chunkCountStep N (rest.length + 1) hN (by omega)

/-- Every produced chunk has at most `N` characters and is non-empty. -/
theorem createTextChunks_mem (N : Nat) (text : List Char) (c : List Char)
    (hc : c ∈ createTextChunks N text) : c.length ≤ N ∧ c ≠ [] := by
  induction text using createTextChunks.induct N with
  | case1 => simp [createTextChunks] at hc
  | case2 a rest h =>
    rw [createTextChunks] at hc
    simp [dif_pos h] at hc
  | case3 a rest h ih =>
    rw [createTextChunks] at hc
    simp only [dif_neg h, List.mem_cons] at hc
    rcases hc with rfl | hc
    · refine ⟨by simp, ?_⟩
      simp [List.take_eq_nil_iff]
      omega
    · exact ih hc

/-- An in-range JS array write is an ordinary `List.set`. -/
theorem jsArraySet_inrange {α : Type} (l : List (Option α)) (i : Int) (v : α)
    (h0 : 0 ≤ i) (hi : i.toNat < l.length) :
    jsArraySet l i v = l.set i.toNat (some v) := by
  unfold jsArraySet
  rw [if_neg (by omega), if_pos hi]

/-- A JS array write at a non-negative index yields length `max len (i + 1)`. -/
theorem jsArraySet_length {α : Type} (l : List (Option α)) (i : Int) (v : α)
    (h0 : 0 ≤ i) :
    (jsArraySet l i v).length = max l.length (i.toNat + 1) := by
  unfold jsArraySet
  rw [if_neg (by omega)]
  by_cases hi : i.toNat < l.length
  · rw [if_pos hi]
    simp only [List.length_set]
    omega
  · rw [if_neg hi]
    simp only [List.length_append, List.length_replicate, List.length_cons,
      List.length_nil]
    omega

/-! ### Named states used by counterexamples and witnesses -/

/-- A small concrete state: one 1-character chunk on stream1, nothing on
stream2.  `oneChunkState_reachable` below shows it is produced by the
store's own operations. -/
def oneChunkState : chunkedMessagesState :=
  { INITIAL_STATE with
    responses := ⟨String.toList "a", []⟩
    chunks := ⟨[String.toList "a"], []⟩
    feedback := ⟨[some emptyFeedback], []⟩ }

theorem oneChunkState_reachable :
    oneChunkState =
      createChunks 800
        (updateStreamContent StreamId.stream1 (String.toList "a") INITIAL_STATE) := by
  have h : createTextChunks 800 (String.toList "a") = [String.toList "a"] := by
    rw [show String.toList "a" = ['a'] from rfl, createTextChunks]
    simp [createTextChunks]
  simp only [createChunks, updateStreamContent, INITIAL_STATE, StreamPair.put, h,
    createTextChunks_nil]
  rfl

/-! ### C1: createChunks partitions the text -/

/-- The conjunction claimed for `createChunks` on one stream: lossless
order-preserving chunking, chunks of at most `N` characters, chunk count
`ceil(len/N)` (0 for empty text), and a regenerated feedback array of
empty entries of the chunk array's length. -/
def CreateChunksSpec (N : Nat) (s : chunkedMessagesState) (sid : StreamId) : Prop :=
  ((createChunks N s).chunks.get sid).flatten = s.responses.get sid ∧
  (∀ c ∈ (createChunks N s).chunks.get sid, c.length ≤ N) ∧
  ((createChunks N s).chunks.get sid).length =
    ((s.responses.get sid).length + N - 1) / N ∧
  (s.responses.get sid = [] → (createChunks N s).chunks.get sid = []) ∧
  (createChunks N s).feedback.get sid =
    createEmptyFeedback ((createChunks N s).chunks.get sid).length

/-- C1: for every input text and every chunk size N > 0, `createChunks`
partitions each response into contiguous non-overlapping segments of at
most N characters whose concatenation reproduces the response, produces
`ceil(len/N)` chunks (0 for empty text), and reinitializes the feedback
array to empty entries of the chunk array's length, for each stream. -/
theorem createChunks_spec (N : Nat) (hN : 0 < N) (s : chunkedMessagesState)
    (sid : StreamId) : CreateChunksSpec N s sid := by
  have hchunks : (createChunks N s).chunks.get sid =
      createTextChunks N (s.responses.get sid) := by
    cases sid <;> rfl
  have hfb : (createChunks N s).feedback.get sid =
      createEmptyFeedback ((createChunks N s).chunks.get sid).length := by
    cases sid <;> rfl
  refine ⟨?_, ?_, ?_, ?_, hfb⟩
  · rw [hchunks]
    exact createTextChunks_flatten N hN _
  · rw [hchunks]
    exact fun c hc => (createTextChunks_mem N _ c hc).1
  · rw [hchunks]
    exact createTextChunks_length N hN _
  · intro h
    rw [hchunks, h, createTextChunks_nil]

theorem createChunks_spec_witness :
    0 < 800 ∧ CreateChunksSpec 800 oneChunkState StreamId.stream1 :=
  ⟨by decide, createChunks_spec 800 (by decide) oneChunkState StreamId.stream1⟩

/-! ### C2: cursor invariant -/

/-- The spec's cursor invariant:
`0 <= currentChunkIndices[s] <= max(0, len(chunks[s]) - 1)` for both
streams. -/
@[reducible] def cursorInvariant (s : chunkedMessagesState) : Prop :=
  0 ≤ s.currentChunkIndices.stream1 ∧
  s.currentChunkIndices.stream1 ≤ max 0 ((s.chunks.stream1.length : Int) - 1) ∧
  0 ≤ s.currentChunkIndices.stream2 ∧
  s.currentChunkIndices.stream2 ≤ max 0 ((s.chunks.stream2.length : Int) - 1)

/-- C2 fails on the code: on the initial state (whose chunk lists are
empty, cursors 0) `showNextChunk` computes `min(0 + 1, 0 - 1) = -1` for
both cursors, decreasing them below 0. -/
theorem showNextChunk_cursor_counterexample :
    cursorInvariant INITIAL_STATE ∧
    (showNextChunk INITIAL_STATE).currentChunkIndices.stream1 = -1 ∧
    ¬ cursorInvariant (showNextChunk INITIAL_STATE) := by
  decide

/-- The amended cursor property: one `showNextChunkForStream` step from an
invariant-satisfying state keeps the invariant and never decreases either
cursor; `showNextChunk` does the same provided both chunk lists are
non-empty (with an empty chunk list it sets that cursor to `-1`, see the
counterexample). -/
def CursorStepSpec (s : chunkedMessagesState) (sid : StreamId) : Prop :=
  (cursorInvariant (showNextChunkForStream sid s) ∧
    (∀ tid, s.currentChunkIndices.get tid ≤
      (showNextChunkForStream sid s).currentChunkIndices.get tid)) ∧
  ((s.chunks.stream1 ≠ [] ∧ s.chunks.stream2 ≠ []) →
    (cursorInvariant (showNextChunk s) ∧
      (∀ tid, s.currentChunkIndices.get tid ≤
        (showNextChunk s).currentChunkIndices.get tid)))

/-- C2 amended: from any state satisfying the cursor invariant,
`showNextChunkForStream` preserves it and is monotone on both cursors;
`showNextChunk` preserves it and is monotone whenever both streams have at
least one chunk. -/
theorem cursor_invariant_amended (s : chunkedMessagesState) (sid : StreamId)
    (hinv : cursorInvariant s) : CursorStepSpec s sid := by
  obtain ⟨h1, h2, h3, h4⟩ := hinv
  constructor
  · constructor
    · cases sid <;>
        · simp only [cursorInvariant, showNextChunkForStream, StreamPair.get,
            StreamPair.put]
          refine ⟨?_, ?_, ?_, ?_⟩ <;> omega
    · intro tid
      cases sid <;> cases tid <;>
        · simp only [showNextChunkForStream, StreamPair.get, StreamPair.put]
          omega
  · rintro ⟨hne1, hne2⟩
    have hl1 : 0 < s.chunks.stream1.length := List.length_pos.mpr hne1
    have hl2 : 0 < s.chunks.stream2.length := List.length_pos.mpr hne2
    constructor
    · simp only [cursorInvariant, showNextChunk]
      refine ⟨?_, ?_, ?_, ?_⟩ <;> omega
    · intro tid
      cases tid <;>
        · simp only [showNextChunk, StreamPair.get]
          omega

theorem cursor_invariant_amended_witness :
    cursorInvariant oneChunkState ∧ CursorStepSpec oneChunkState StreamId.stream1 :=
  ⟨by decide, cursor_invariant_amended oneChunkState StreamId.stream1 (by decide)⟩

/-! ### C3 and C4: recordFeedback -/

theorem StreamPair.put_get_self {α : Type} (p : StreamPair α) (sid : StreamId) :
    p.put sid (p.get sid) = p := by
  cases sid <;> rfl

theorem jsArraySet_neg {α : Type} (l : List (Option α)) (i : Int) (v : α)
    (h : i < 0) : jsArraySet l i v = l := by
  unfold jsArraySet
  rw [if_pos h]

theorem jsArraySet_set {α : Type} (l : List (Option α)) (i : Int) (v1 v2 : α)
    (h0 : 0 ≤ i) (hi : i.toNat < l.length) :
    jsArraySet (jsArraySet l i v1) i v2 = jsArraySet l i v2 := by
  rw [jsArraySet_inrange l i v1 h0 hi,
    jsArraySet_inrange _ i v2 h0 (by simpa using hi),
    jsArraySet_inrange l i v2 h0 hi, List.set_set]

/-- C3 fails on the code: with one chunk and a matching one-entry feedback
array, recording at index 1 is not a no-op on the feedback array — the JS
write `updatedFeedback[1] = ...` grows it to length 2, breaking
`len(feedback[s]) == len(chunks[s])`. -/
theorem recordFeedback_oob_counterexample :
    (recordFeedback StreamId.stream1 1 emptyFeedback 0 oneChunkState).chunks.stream1.length = 1 ∧
    (recordFeedback StreamId.stream1 1 emptyFeedback 0 oneChunkState).feedback.stream1.length = 2 := by
  decide

/-- The amended out-of-range contract of `recordFeedback`: it never throws
(it is a total state transition); a negative index leaves the feedback
arrays entirely unchanged; a non-negative index makes the stream's
feedback array `max len (chunkIndex + 1)` long (so an index `≥ len` grows
it instead of being ignored); the other stream's feedback is never
touched; and the selection is cleared in every case. -/
def RecordFeedbackOobSpec (s : chunkedMessagesState) (sid : StreamId) (i : Int)
    (fb : ChunkFeedback) (now : Nat) : Prop :=
  (i < 0 → (recordFeedback sid i fb now s).feedback = s.feedback) ∧
  (0 ≤ i → ((recordFeedback sid i fb now s).feedback.get sid).length =
    max (s.feedback.get sid).length (i.toNat + 1)) ∧
  (∀ tid, tid ≠ sid →
    (recordFeedback sid i fb now s).feedback.get tid = s.feedback.get tid) ∧
  (recordFeedback sid i fb now s).selectedText = "" ∧
  (recordFeedback sid i fb now s).activeStreamId = none ∧
  (recordFeedback sid i fb now s).activeChunkIndex = none

/-- C3 amended: `recordFeedback` with an out-of-range index never throws,
but only a negative index is a no-op on the feedback arrays; an index at
or beyond the array length extends the feedback array, so the length
invariant is not preserved there. -/
theorem recordFeedback_oob_amended (s : chunkedMessagesState) (sid : StreamId)
    (i : Int) (fb : ChunkFeedback) (now : Nat) :
    RecordFeedbackOobSpec s sid i fb now := by
  refine ⟨?_, ?_, ?_, rfl, rfl, rfl⟩
  · intro hneg
    simp only [recordFeedback]
    rw [jsArraySet_neg _ _ _ hneg]
    exact StreamPair.put_get_self _ sid
  · intro hpos
    simp only [recordFeedback, StreamPair.get_put_same]
    exact jsArraySet_length _ i _ hpos
  · intro tid htid
    simp only [recordFeedback]
    exact StreamPair.get_put_other _ sid tid _ htid

theorem recordFeedback_oob_amended_witness :
    (recordFeedback StreamId.stream1 (-1) emptyFeedback 0 oneChunkState).feedback =
      oneChunkState.feedback :=
  (recordFeedback_oob_amended oneChunkState StreamId.stream1 (-1) emptyFeedback 0).1
    (by decide)

/-- The in-range contract of `recordFeedback` claimed by C4: the entry at
`chunkIndex` becomes the given partial entry stamped with the current
time, every other slot and the other stream are untouched, the length is
preserved, the selection is cleared, and repeating the identical call
collapses to a single write carrying the later timestamp. -/
def RecordFeedbackSpec (s : chunkedMessagesState) (sid : StreamId) (i : Int)
    (fb : ChunkFeedback) (now1 now2 : Nat) : Prop :=
  ((recordFeedback sid i fb now1 s).feedback.get sid).get? i.toNat =
    some (some { fb with timestamp := some now1 }) ∧
  ((recordFeedback sid i fb now1 s).feedback.get sid).length =
    (s.feedback.get sid).length ∧
  (∀ j : Nat, j ≠ i.toNat →
    ((recordFeedback sid i fb now1 s).feedback.get sid).get? j =
      (s.feedback.get sid).get? j) ∧
  (∀ tid, tid ≠ sid →
    (recordFeedback sid i fb now1 s).feedback.get tid = s.feedback.get tid) ∧
  (recordFeedback sid i fb now1 s).selectedText = "" ∧
  (recordFeedback sid i fb now1 s).activeStreamId = none ∧
  (recordFeedback sid i fb now1 s).activeChunkIndex = none ∧
  recordFeedback sid i fb now2 (recordFeedback sid i fb now1 s) =
    recordFeedback sid i fb now2 s

/-- C4: for an in-range chunk index (assuming the feedback array has the
chunk array's length, which chunk creation establishes), `recordFeedback`
overwrites exactly the addressed entry with the timestamp-stamped partial
entry, clears the selection, and is idempotent up to the later
timestamp. -/
theorem recordFeedback_spec (s : chunkedMessagesState) (sid : StreamId)
    (i : Int) (fb : ChunkFeedback) (now1 now2 : Nat)
    (hlen : (s.feedback.get sid).length = (s.chunks.get sid).length)
    (h0 : 0 ≤ i) (hi : i.toNat < (s.chunks.get sid).length) :
    RecordFeedbackSpec s sid i fb now1 now2 := by
  have hif : i.toNat < (s.feedback.get sid).length := by
    rw [hlen]
    exact hi
  have hset : (recordFeedback sid i fb now1 s).feedback.get sid =
      (s.feedback.get sid).set i.toNat (some { fb with timestamp := some now1 }) := by
    simp only [recordFeedback, StreamPair.get_put_same]
    exact jsArraySet_inrange _ i _ h0 hif
  refine ⟨?_, ?_, ?_, ?_, rfl, rfl, rfl, ?_⟩
  · rw [hset]
    exact List.get?_set_eq_of_lt _ hif
  · rw [hset]
    simp
  · intro j hj
    rw [hset]
    exact List.get?_set_ne _ _ (Ne.symm hj)
  · intro tid htid
    simp only [recordFeedback]
    exact StreamPair.get_put_other _ sid tid _ htid
  · simp only [recordFeedback, StreamPair.get_put_same, StreamPair.put_put_same,
      jsArraySet_set _ i _ _ h0 hif]

theorem recordFeedback_spec_witness :
    RecordFeedbackSpec oneChunkState StreamId.stream1 0 emptyFeedback 1 2 :=
  recordFeedback_spec oneChunkState StreamId.stream1 0 emptyFeedback 1 2
    (by decide) (by decide) (by decide)

/-! ### C5: the retry predicate -/

/-- The property claimed for `retry`: a retry is granted only on the very
first failure and only for an authorization (401) error; any failure
count of at least 1 — in particular a second authorization failure after
one retry — and any non-authorization error are reported as failure. -/
def RetrySpec (failCount : Nat) (e : CohereNetworkError) : Prop :=
  (retry failCount e = true → failCount = 0 ∧ isUnauthorizedError e = true) ∧
  (1 ≤ failCount → retry failCount e = false) ∧
  (isUnauthorizedError e = false → retry failCount e = false)

/-- C5: the streaming session's retry predicate permits at most one retry,
and only for an authorization failure. -/
theorem retry_spec (failCount : Nat) (e : CohereNetworkError) :
    RetrySpec failCount e := by
  unfold RetrySpec retry
  by_cases h : isUnauthorizedError e = true
  · rw [if_pos h]
    refine ⟨fun ht => ⟨by simpa using ht, h⟩, ?_, ?_⟩
    · intro h1
      simp only [decide_eq_false_iff_not]
      omega
    · intro hfalse
      rw [h] at hfalse
      exact absurd hfalse (by simp)
  · rw [if_neg h]
    exact ⟨fun ht => absurd ht (by simp), fun _ => rfl, fun _ => rfl⟩

theorem retry_spec_witness :
    retry 1 (CohereNetworkError.mk 401) = false :=
  (retry_spec 1 (CohereNetworkError.mk 401)).2.1 (by decide)

/-! ### C6: startFeedbackSession -/

/-- C6 fails on the code: in a state with a non-empty response and no
chunks, `startFeedbackSession` does not clear the fields to their empty
defaults — the response (and the selection and `isComplete`) are
preserved. -/
theorem startFeedbackSession_counterexample :
    ((startFeedbackSession
      (updateStreamContent StreamId.stream1 (String.toList "a")
        INITIAL_STATE)).chunks = INITIAL_STATE.chunks ∧
     (startFeedbackSession
      (updateStreamContent StreamId.stream1 (String.toList "a")
        INITIAL_STATE)).responses.stream1 ≠ []) := by
  decide

/-- The amended behaviour of `startFeedbackSession`: unconditionally (with
or without existing chunks) it preserves `responses` and `chunks`, resets
both cursors to 0, regenerates empty feedback arrays sized to the current
chunk counts, sets `isChunked`, and leaves `isComplete` and the selection
untouched.  In particular, when no chunks exist it does not clear the
other fields to their defaults. -/
def StartFeedbackSessionSpec (s : chunkedMessagesState) : Prop :=
  (startFeedbackSession s).responses = s.responses ∧
  (startFeedbackSession s).chunks = s.chunks ∧
  (startFeedbackSession s).currentChunkIndices = ⟨0, 0⟩ ∧
  (startFeedbackSession s).feedback =
    ⟨createEmptyFeedback s.chunks.stream1.length,
     createEmptyFeedback s.chunks.stream2.length⟩ ∧
  (startFeedbackSession s).isChunked = true ∧
  (startFeedbackSession s).isComplete = s.isComplete ∧
  (startFeedbackSession s).selectedText = s.selectedText ∧
  (startFeedbackSession s).activeStreamId = s.activeStreamId ∧
  (startFeedbackSession s).activeChunkIndex = s.activeChunkIndex

/-- C6 amended: `startFeedbackSession` always restarts within the existing
data: cursors to 0, fresh empty feedback sized to the current chunk
counts, `isChunked := true`, everything else preserved. -/
theorem startFeedbackSession_amended (s : chunkedMessagesState) :
    StartFeedbackSessionSpec s :=
  ⟨rfl, rfl, rfl, rfl, rfl, rfl, rfl, rfl, rfl⟩

theorem startFeedbackSession_amended_witness :
    StartFeedbackSessionSpec oneChunkState :=
  startFeedbackSession_amended oneChunkState

/-! ### C7: setSelectedText / clearSelectedText -/

/-- C7 fails on the code: `setSelectedText` with empty text is not treated
as `clearSelectedText` — it still installs the stream/chunk reference, so
the claimed invariant "`activeFeedback.streamId` is non-null only if
`selectedText` is non-empty" is violated after the call. -/
theorem setSelectedText_empty_counterexample :
    (setSelectedText "" StreamId.stream1 0 INITIAL_STATE ≠
      clearSelectedText INITIAL_STATE) ∧
    (setSelectedText "" StreamId.stream1 0 INITIAL_STATE).selectedText = "" ∧
    (setSelectedText "" StreamId.stream1 0 INITIAL_STATE).activeStreamId ≠ none := by
  decide

/-- The amended behaviour of the selection operations: `setSelectedText`
unconditionally stores the text (empty or not) and the stream/chunk
reference; `clearSelectedText` resets the text and both reference fields
together; both leave every other state field unchanged. -/
def SelectionOpsSpec (s : chunkedMessagesState) (text : String)
    (sid : StreamId) (i : Int) : Prop :=
  (setSelectedText text sid i s).selectedText = text ∧
  (setSelectedText text sid i s).activeStreamId = some sid ∧
  (setSelectedText text sid i s).activeChunkIndex = some i ∧
  (setSelectedText text sid i s).responses = s.responses ∧
  (setSelectedText text sid i s).chunks = s.chunks ∧
  (setSelectedText text sid i s).feedback = s.feedback ∧
  (setSelectedText text sid i s).currentChunkIndices = s.currentChunkIndices ∧
  (clearSelectedText s).selectedText = "" ∧
  (clearSelectedText s).activeStreamId = none ∧
  (clearSelectedText s).activeChunkIndex = none ∧
  (clearSelectedText s).responses = s.responses ∧
  (clearSelectedText s).chunks = s.chunks ∧
  (clearSelectedText s).feedback = s.feedback ∧
  (clearSelectedText s).currentChunkIndices = s.currentChunkIndices

/-- C7 amended: `setSelectedText` sets the selection unconditionally, so
an empty text still installs a non-null stream reference (it is not a
`clearSelectedText`); clearing resets text and both reference fields
together. -/
theorem selection_ops_amended (s : chunkedMessagesState) (text : String)
    (sid : StreamId) (i : Int) : SelectionOpsSpec s text sid i :=
  ⟨rfl, rfl, rfl, rfl, rfl, rfl, rfl, rfl, rfl, rfl, rfl, rfl, rfl, rfl⟩

theorem selection_ops_amended_witness :
    SelectionOpsSpec INITIAL_STATE "x" StreamId.stream1 0 :=
  selection_ops_amended INITIAL_STATE "x" StreamId.stream1 0

/-! ### C8: showNextChunkForStream -/

/-- C8 fails on the code: `showNextChunkForStream` does not clear the
highlighted selection — a previously set `selectedText`/`activeFeedback`
survives the cursor advance. -/
theorem showNextChunkForStream_counterexample :
    (showNextChunkForStream StreamId.stream1
      (setSelectedText "x" StreamId.stream1 0 oneChunkState)).selectedText = "x" ∧
    (showNextChunkForStream StreamId.stream1
      (setSelectedText "x" StreamId.stream1 0 oneChunkState)).activeStreamId ≠
      none := by
  decide

/-- The amended behaviour of `showNextChunkForStream`: it advances the
addressed cursor by one, clamped to `max(0, len(chunks[s]) - 1)`, leaves
the other cursor alone, and leaves responses, chunks, feedback and the
selection (text and stream/chunk reference) unchanged — the selection is
not cleared. -/
def ShowNextChunkForStreamSpec (s : chunkedMessagesState) (sid : StreamId) : Prop :=
  (showNextChunkForStream sid s).currentChunkIndices.get sid =
    min (s.currentChunkIndices.get sid + 1)
      (max 0 (((s.chunks.get sid).length : Int) - 1)) ∧
  (∀ tid, tid ≠ sid →
    (showNextChunkForStream sid s).currentChunkIndices.get tid =
      s.currentChunkIndices.get tid) ∧
  (showNextChunkForStream sid s).responses = s.responses ∧
  (showNextChunkForStream sid s).chunks = s.chunks ∧
  (showNextChunkForStream sid s).feedback = s.feedback ∧
  (showNextChunkForStream sid s).selectedText = s.selectedText ∧
  (showNextChunkForStream sid s).activeStreamId = s.activeStreamId ∧
  (showNextChunkForStream sid s).activeChunkIndex = s.activeChunkIndex

/-- C8 amended: the cursor advance is increment-and-clamp as claimed, and
all other fields — including the selection, which the claim said is
cleared — are unchanged. -/
theorem showNextChunkForStream_amended (s : chunkedMessagesState)
    (sid : StreamId) : ShowNextChunkForStreamSpec s sid := by
  refine ⟨?_, ?_, rfl, rfl, rfl, rfl, rfl, rfl⟩
  · simp only [showNextChunkForStream, StreamPair.get_put_same]
  · intro tid htid
    simp only [showNextChunkForStream]
    exact StreamPair.get_put_other _ sid tid _ htid

theorem showNextChunkForStream_amended_witness :
    ShowNextChunkForStreamSpec oneChunkState StreamId.stream1 :=
  showNextChunkForStream_amended oneChunkState StreamId.stream1

/-! ### C9: getUpdatedConversations -/

/-- The by-id-replace-only contract of `getUpdatedConversations`: the list
length never changes, and entry `i` of the result is entry `i` of the
input with `description`/`updatedAt` replaced when the id matches and all
fields unchanged otherwise (the `title` stand-in field is always carried
over). -/
def GetUpdatedConversationsSpec (conversationId description now : String)
    (conversations : List ConversationPublic) : Prop :=
  (getUpdatedConversations conversationId description now conversations).length =
    conversations.length ∧
  (∀ i : Nat, ∀ c : ConversationPublic, conversations.get? i = some c →
    ∃ c2, (getUpdatedConversations conversationId description now
        conversations).get? i = some c2 ∧
      c2.id = c.id ∧ c2.title = c.title ∧
      c2.description = (if c.id = conversationId then description else c.description) ∧
      c2.updatedAt = (if c.id = conversationId then now else c.updatedAt))

/-- C9: the conversation-cache update is a pure by-id replace: ids and
other fields are preserved, matching entries get the new description and
timestamp, and no entry is created or deleted. -/
theorem getUpdatedConversations_spec (conversationId description now : String)
    (conversations : List ConversationPublic) :
    GetUpdatedConversationsSpec conversationId description now conversations := by
  constructor
  · simp [getUpdatedConversations]
  · intro i c hc
    refine ⟨if c.id ≠ conversationId then c
      else { c with description := description, updatedAt := now }, ?_, ?_⟩
    · simp only [getUpdatedConversations, List.get?_map, hc]
      rfl
    · by_cases hid : c.id = conversationId
      · simp [hid]
      · simp [hid]

theorem getUpdatedConversations_spec_witness :
    GetUpdatedConversationsSpec "c1" "done" "t1"
      [ConversationPublic.mk "c1" "old" "t0" "hello",
       ConversationPublic.mk "c2" "other" "t0" "bye"] :=
  getUpdatedConversations_spec "c1" "done" "t1"
    [ConversationPublic.mk "c1" "old" "t0" "hello",
     ConversationPublic.mk "c2" "other" "t0" "bye"]

/-! ### C10: getDecoratedChunk -/

/-- The read-only decoration contract of `getDecoratedChunk`: an index
with no chunk at that position yields the empty string, and a (non-empty)
stored chunk is returned with the arrow markers exactly when the index
equals the stream's current cursor, and verbatim otherwise.  (The
non-emptiness proviso matches reachable chunk arrays:
`createTextChunks_mem` shows `createChunks` never produces an empty
chunk; for an empty stored chunk the truthiness guard in the source would
return the empty string even at the cursor.) -/
def GetDecoratedChunkSpec (s : chunkedMessagesState) (sid : StreamId)
    (i : Int) : Prop :=
  (jsArrayGet (s.chunks.get sid) i = none → getDecoratedChunk sid i s = []) ∧
  (∀ c, jsArrayGet (s.chunks.get sid) i = some c → c ≠ [] →
    getDecoratedChunk sid i s =
      if i = s.currentChunkIndices.get sid then leadingMark ++ c ++ trailingMark
      else c)

/-- C10: `getDecoratedChunk` returns the empty string when no chunk is
stored at the index, and otherwise decorates the stored chunk with the
arrow markers exactly when the index is the stream's current cursor.  It
is a pure accessor over the state and returns a string without producing
a new state. -/
theorem getDecoratedChunk_spec (s : chunkedMessagesState) (sid : StreamId)
    (i : Int) : GetDecoratedChunkSpec s sid i := by
  constructor
  · intro h
    simp only [getDecoratedChunk, h]
  · intro c hc hne
    simp only [getDecoratedChunk, hc]
    rw [if_neg hne]

theorem getDecoratedChunk_spec_witness :
    getDecoratedChunk StreamId.stream1 0 oneChunkState =
      leadingMark ++ String.toList "a" ++ trailingMark := by
  have h := (getDecoratedChunk_spec oneChunkState StreamId.stream1 0).2
    (String.toList "a") (by decide) (by decide)
  rw [h]
  decide
